import Mathlib

/-!
Verification of `desktopctl.py`, a minimal desktop GUI control helper for
Linux X11.  The script is a thin wrapper around external utilities
(`xdotool`, `scrot`, URL openers): every subcommand builds an external
command line, runs it with two environment overrides, and forwards stdout
or exit status.

The shallow embedding below models:
  * the external environment as a `World` (binary resolution on the search
    path, plus an oracle giving each external invocation's exit code and
    captured stdout);
  * each subcommand handler as a pure function from the context, the world
    and its CLI arguments to an `HRes` record (ordered list of external
    invocations issued, lines printed to stdout, directory-creation
    effects, and the final process outcome).

Python string/path primitives used by the script (`str.split()`,
`str.strip()`, `pathlib` normalization and joining, `or`-truthiness,
`strftime` decimal field rendering) are given executable list-of-char
models so that every definition evaluates by `decide`/`rfl`.
-/

set_option autoImplicit false

namespace Desktopctl

/-- Model of Python `str.strip()` restricted to ASCII whitespace
(the script only ever strips `xdotool` output, which is ASCII). -/
def pyStrip (s : String) : String :=
  String.mk (((s.data.dropWhile Char.isWhitespace).reverse.dropWhile Char.isWhitespace).reverse)

/-- Split a character list at runs of separator characters (those satisfying
`p`), dropping empty tokens; `cur` accumulates the current token reversed.
This is the common core of Python `str.split()` (no arguments) and of
`pathlib` component splitting. -/
def splitRuns (p : Char → Bool) : List Char → List Char → List String
  | [], cur => if cur.isEmpty then [] else [String.mk cur.reverse]
  | c :: cs, cur =>
    if p c then
      (if cur.isEmpty then splitRuns p cs [] else String.mk cur.reverse :: splitRuns p cs [])
    else splitRuns p cs (c :: cur)

/-- Model of Python `str.split()` with no arguments: split on whitespace
runs, producing no empty tokens. -/
def pySplitWs (s : String) : List String :=
  splitRuns Char.isWhitespace s.data []

/-- Components of a POSIX path as `pathlib` keeps them: split on `/`,
dropping empty components and single dots. -/
def pathComps (s : String) : List String :=
  (splitRuns (fun c => c == '/') s.data []).filter (fun c => c != ".")

/-- The root part of a POSIX path as `pathlib` keeps it: a leading `//` is
preserved as-is, any other number of leading slashes collapses to `/`. -/
def pathRoot (s : String) : String :=
  if (s.data.takeWhile (fun c => c == '/')).length == 2 then "//"
  else if (s.data.takeWhile (fun c => c == '/')).length ≥ 1 then "/"
  else ""

/-- Model of `str(pathlib.Path(s))` for POSIX paths: the normalized form
(duplicate slashes and `.` components removed, `.` for an empty path). -/
def pathStr (s : String) : String :=
  let comps := pathComps s
  let root := pathRoot s
  if comps.isEmpty then (if root.isEmpty then "." else root)
  else root ++ String.intercalate "/" comps

/-- Model of `pathlib.Path(p).name`: the last kept component, `""` when
there is none. -/
def pathName (p : String) : String :=
  (pathComps p).getLastD ""

/-- Model of `str(pathlib.Path(d) / n)` where `d` is already in normalized
(`pathStr`) form and `n` is a single non-empty slash-free file name. -/
def joinRel (d n : String) : String :=
  if d = "." then n
  else if d = "/" then d ++ n
  else if d = "//" then d ++ n
  else d ++ "/" ++ n

/-- Python truthiness of an `Optional[str]`: `None` and `""` are falsy. -/
def pyTruthy (o : Option String) : Bool :=
  match o with
  | none => false
  | some s => !(s == "")

/-- Python `a or b` on `Optional[str]` values (`None` and `""` are falsy). -/
def pyOr (a b : Option String) : Option String :=
  if pyTruthy a then a else b

/-- Python `a or d` where `a : Optional[str]` and `d` is a string default
(the `os.environ.get(...) or fallback` idiom). -/
def pyOrS (a : Option String) (d : String) : String :=
  match a with
  | none => d
  | some s => if s = "" then d else s

/-- Decimal digit character for `n ≤ 9` (the only values the formatter
passes in; the final catch-all returns `'9'`). -/
def digitChar (n : Nat) : Char :=
  if n = 0 then '0' else if n = 1 then '1' else if n = 2 then '2'
  else if n = 3 then '3' else if n = 4 then '4' else if n = 5 then '5'
  else if n = 6 then '6' else if n = 7 then '7' else if n = 8 then '8'
  else '9'

/-- Fueled most-significant-first decimal rendering of a natural number
(fuel `n + 1` always suffices). -/
def decCharsAux : Nat → Nat → List Char
  | 0, _ => []
  | fuel + 1, n =>
    if n < 10 then [digitChar n]
    else decCharsAux fuel (n / 10) ++ [digitChar (n % 10)]

/-- Decimal digit characters of `n`, most significant first. -/
def decChars (n : Nat) : List Char :=
  decCharsAux (n + 1) n

/-- Left zero-padding to width `w`, as `strftime` zero-padded numeric
fields render (no truncation). -/
def pad0 (w : Nat) (l : List Char) : List Char :=
  List.replicate (w - l.length) '0' ++ l

/-- A two-character zero-padded decimal field (`%m %d %H %M %S`). -/
def fmt2 (n : Nat) : List Char := pad0 2 (decChars n)

/-- A four-character zero-padded decimal field (`%Y`). -/
def fmt4 (n : Nat) : List Char := pad0 4 (decChars n)

/-- A UTC timestamp as `datetime.utcnow()` decomposes it. -/
structure UTCTime where
  year : Nat
  month : Nat
  day : Nat
  hour : Nat
  minute : Nat
  second : Nat
deriving DecidableEq

/-- Model of `datetime.utcnow().strftime("%Y%m%d-%H%M%S")`. -/
def strftimeTs (t : UTCTime) : String :=
  String.mk (fmt4 t.year ++ fmt2 t.month ++ fmt2 t.day ++ ['-']
    ++ fmt2 t.hour ++ fmt2 t.minute ++ fmt2 t.second)

/-- The auto-generated screenshot file name
`f"desktop-{datetime.utcnow().strftime('%Y%m%d-%H%M%S')}.png"`. -/
def shotName (t : UTCTime) : String :=
  "desktop-" ++ strftimeTs t ++ ".png"

/-- The execution context: the `Ctx` dataclass (display identifier and
authorization-cookie path), injected as environment overrides into every
external invocation. -/
structure Ctx where
  display : String
  xauthority : String
deriving DecidableEq

/-- Result of one external invocation: exit code and captured stdout
(meaningful when the call captures). -/
structure ExecResult where
  exitCode : Nat
  stdout : String
deriving DecidableEq

/-- The external environment: `which` models `shutil.which` (resolved
path of a binary on the search path, or none), `run` is the oracle giving
each argument vector's execution result. -/
structure World where
  which : String → Option String
  run : List String → ExecResult

/-- Observable outcome of running one subcommand handler: the external
invocations issued in order (argument vectors), the lines printed to
stdout in order, the paths whose parent directories were created
(`mkdir(parents=True, exist_ok=True)`), the process outcome (`none` =
exit 0, `some msg` = non-zero exit carrying the fatal message), and the
final context (the handlers never mutate the `Ctx` dataclass). -/
structure HRes where
  calls : List (List String)
  printed : List String
  mkdirs : List String
  exit : Option String
  ctxFinal : Ctx
deriving DecidableEq

/-- The `SystemExit` message `require_bins` raises for a non-empty missing
list. -/
def requireMsg (missing : List String) : String :=
  "Missing required command(s): " ++ String.intercalate ", " missing
    ++ "\nInstall (Debian/Ubuntu): sudo apt-get install -y "
    ++ String.intercalate " " missing

/-- `require_bins(*bins)`: the missing binaries in required order; `some`
fatal message when any is missing, `none` when all resolve. -/
def require_bins (w : World) (bins : List String) : Option String :=
  let missing := bins.filter (fun b => (w.which b).isNone)
  if missing = [] then none else some (requireMsg missing)

/-- Fatal outcome of an uncaught `subprocess.CalledProcessError` from a
checked invocation (the message text is not inspected by any claim). -/
def cpeMsg (argv : List String) : String :=
  "CalledProcessError: " ++ String.intercalate " " argv

/-- The `xdotool search --onlyvisible --name <name>` argument vector. -/
def searchArgv (name : String) : List String :=
  ["xdotool", "search", "--onlyvisible", "--name", name]

/-- The wildcard window search issued by the `windows` subcommand. -/
def windowsSearchArgv : List String := searchArgv ".*"

/-- The pointer-location query issued by the `where` subcommand. -/
def whereArgv : List String := ["xdotool", "getmouselocation", "--shell"]

/-- `[x for x in r.stdout.split() if x.strip()]` applied to the capture of
the window search for `name`. -/
def activateIds (w : World) (name : String) : List String :=
  (pySplitWs (w.run (searchArgv name)).stdout).filter (fun x => pyStrip x != "")

/-- The identifiers the `windows` subcommand iterates over. -/
def windowIds (w : World) : List String :=
  (pySplitWs (w.run windowsSearchArgv).stdout).filter (fun x => pyStrip x != "")

/-- `cmd_screenshot`: preflight `scrot`; resolve the output path (explicit
`--out` when truthy, else `--out-dir` joined with the timestamp name);
create parent directories; run `scrot` (checked); print the path. -/
def cmd_screenshot (ctx : Ctx) (w : World) (out : Option String)
    (outDir : String) (now : UTCTime) : HRes :=
  match require_bins w ["scrot"] with
  | some m => ⟨[], [], [], some m, ctx⟩
  | none =>
    let outPath :=
      if pyTruthy out then pathStr (out.getD "")
      else joinRel (pathStr outDir) (shotName now)
    if (w.run ["scrot", outPath]).exitCode = 0 then
      ⟨[["scrot", outPath]], [outPath], [outPath], none, ctx⟩
    else
      ⟨[["scrot", outPath]], [], [outPath], some (cpeMsg ["scrot", outPath]), ctx⟩

/-- `cmd_click`: preflight `xdotool`; move the pointer (checked), then
click with the given button (checked). -/
def cmd_click (ctx : Ctx) (w : World) (x y button : Int) : HRes :=
  match require_bins w ["xdotool"] with
  | some m => ⟨[], [], [], some m, ctx⟩
  | none =>
    let mv := ["xdotool", "mousemove", toString x, toString y]
    if (w.run mv).exitCode = 0 then
      let ck := ["xdotool", "click", toString button]
      if (w.run ck).exitCode = 0 then
        ⟨[mv, ck], [], [], none, ctx⟩
      else ⟨[mv, ck], [], [], some (cpeMsg ck), ctx⟩
    else ⟨[mv], [], [], some (cpeMsg mv), ctx⟩

/-- `cmd_type`: preflight `xdotool`; type the text with the given delay
(checked). -/
def cmd_type (ctx : Ctx) (w : World) (text : String) (delay : Int) : HRes :=
  match require_bins w ["xdotool"] with
  | some m => ⟨[], [], [], some m, ctx⟩
  | none =>
    let tv := ["xdotool", "type", "--delay", toString delay, text]
    if (w.run tv).exitCode = 0 then ⟨[tv], [], [], none, ctx⟩
    else ⟨[tv], [], [], some (cpeMsg tv), ctx⟩

/-- `cmd_key`: preflight `xdotool`; send the key chord (checked). -/
def cmd_key (ctx : Ctx) (w : World) (keys : String) : HRes :=
  match require_bins w ["xdotool"] with
  | some m => ⟨[], [], [], some m, ctx⟩
  | none =>
    let kv := ["xdotool", "key", keys]
    if (w.run kv).exitCode = 0 then ⟨[kv], [], [], none, ctx⟩
    else ⟨[kv], [], [], some (cpeMsg kv), ctx⟩

/-- `cmd_where`: preflight `xdotool`; capture the pointer location
(checked) and print its stripped stdout. -/
def cmd_where (ctx : Ctx) (w : World) : HRes :=
  match require_bins w ["xdotool"] with
  | some m => ⟨[], [], [], some m, ctx⟩
  | none =>
    let r := w.run whereArgv
    if r.exitCode = 0 then ⟨[whereArgv], [pyStrip r.stdout], [], none, ctx⟩
    else ⟨[whereArgv], [], [], some (cpeMsg whereArgv), ctx⟩

/-- `cmd_windows`: preflight `xdotool`; wildcard search (tolerant), then
for each identifier a tolerant title lookup, printing one
`identifier<TAB>title` line per identifier. -/
def cmd_windows (ctx : Ctx) (w : World) : HRes :=
  match require_bins w ["xdotool"] with
  | some m => ⟨[], [], [], some m, ctx⟩
  | none =>
    let ids := windowIds w
    ⟨windowsSearchArgv :: ids.map (fun wid => ["xdotool", "getwindowname", wid]),
      ids.map (fun wid =>
        wid ++ "\t" ++ pyStrip (w.run ["xdotool", "getwindowname", wid]).stdout),
      [], none, ctx⟩

/-- `cmd_activate`: preflight `xdotool`; tolerant window search; fatal when
no identifier matches, otherwise activate the last identifier (checked)
and print it. -/
def cmd_activate (ctx : Ctx) (w : World) (name : String) : HRes :=
  match require_bins w ["xdotool"] with
  | some m => ⟨[], [], [], some m, ctx⟩
  | none =>
    let ids := activateIds w name
    if ids = [] then
      ⟨[searchArgv name], [], [], some ("No window found matching: " ++ name), ctx⟩
    else
      let wid := ids.getLastD ""
      let av := ["xdotool", "windowactivate", wid]
      if (w.run av).exitCode = 0 then
        ⟨[searchArgv name, av], [wid], [], none, ctx⟩
      else ⟨[searchArgv name, av], [], [], some (cpeMsg av), ctx⟩

/-- `cmd_open`: resolve `xdg-open or gio`; a resolved opener whose basename
is `gio` runs `gio open <url>` (tolerant), any other resolved opener runs
`<opener> <url>` (tolerant); else fall back to `chromium-browser <url>`
(tolerant) when it resolves; else fatal. -/
def cmd_open (ctx : Ctx) (w : World) (url : String) : HRes :=
  let opener := pyOr (w.which "xdg-open") (w.which "gio")
  if pyTruthy opener && (pathName (opener.getD "") == "gio") then
    ⟨[[opener.getD "", "open", url]], [], [], none, ctx⟩
  else if pyTruthy opener then
    ⟨[[opener.getD "", url]], [], [], none, ctx⟩
  else if pyTruthy (w.which "chromium-browser") then
    ⟨[["chromium-browser", url]], [], [], none, ctx⟩
  else
    ⟨[], [], [], some "No URL opener found (tried xdg-open/gio/chromium-browser)", ctx⟩

/-- Context construction in `main`: each field is the CLI flag when given,
else the module-level default computed from the environment
(`os.environ.get("DISPLAY") or ":0"`;
`os.environ.get("XAUTHORITY") or str(Path.home() / ".Xauthority")`). -/
def mkCtx (flagDisplay flagXauth : Option String)
    (envDisplay envXauth : Option String) (home : String) : Ctx :=
  { display := flagDisplay.getD (pyOrS envDisplay ":0"),
    xauthority := flagXauth.getD (pyOrS envXauth (joinRel (pathStr home) ".Xauthority")) }

/-! Concrete worlds used by witnesses and counterexamples. -/

/-- A concrete execution context. -/
def ctx0 : Ctx := ⟨":0", "/root/.Xauthority"⟩

/-- A world where only `xdotool` resolves; the window search for `Edit.*`
lists two identifiers, the wildcard search lists `7` and `8`, title lookup
succeeds for `7` and fails (non-zero exit, empty capture) for `8`; every
other invocation succeeds with empty output. -/
def xdoWorld : World where
  which := fun b => if b = "xdotool" then some "/usr/bin/xdotool" else none
  run := fun argv =>
    if argv = searchArgv "Edit.*" then ⟨0, "1001 1002\n"⟩
    else if argv = searchArgv "NoSuch" then ⟨1, ""⟩
    else if argv = windowsSearchArgv then ⟨0, "7 8\n"⟩
    else if argv = ["xdotool", "getwindowname", "7"] then ⟨0, "Editor\n"⟩
    else if argv = ["xdotool", "getwindowname", "8"] then ⟨1, ""⟩
    else if argv = whereArgv then ⟨0, "X=290 Y=418\n\n"⟩
    else ⟨0, ""⟩

/-- A world where only `scrot` resolves and every invocation succeeds. -/
def scrotWorld : World where
  which := fun b => if b = "scrot" then some "/usr/bin/scrot" else none
  run := fun _ => ⟨0, ""⟩

/-- A world with no binaries on the search path at all. -/
def bareWorld : World where
  which := fun _ => none
  run := fun _ => ⟨0, ""⟩

/-- A world where only `xdg-open` resolves; its launch exits non-zero. -/
def xdgWorld : World where
  which := fun b => if b = "xdg-open" then some "/usr/bin/xdg-open" else none
  run := fun _ => ⟨4, ""⟩

/-- A world where only `gio` resolves. -/
def gioWorld : World where
  which := fun b => if b = "gio" then some "/usr/bin/gio" else none
  run := fun _ => ⟨0, ""⟩

/-- A world where only `chromium-browser` resolves. -/
def chromiumWorld : World where
  which := fun b => if b = "chromium-browser" then some "/usr/bin/chromium-browser" else none
  run := fun _ => ⟨0, ""⟩

/-- The stdout text a handler run emits: each printed line followed by the
newline `print` appends. -/
def emittedOut (h : HRes) : String :=
  String.join (h.printed.map (fun s => s ++ "\n"))

/-! Claim theorems. -/

/-- C7: for the `click` subcommand with coordinates `x, y` and button `b`,
when `xdotool` resolves and the pointer move succeeds, exactly two external
invocations occur, in order a pointer move to `(x, y)` then a click with
button `b`, and nothing else. -/
theorem click_exactly_move_then_click (ctx : Ctx) (w : World) (x y b : Int)
    (p : String) (hx : w.which "xdotool" = some p)
    (hm : (w.run ["xdotool", "mousemove", toString x, toString y]).exitCode = 0)
    (hc : (w.run ["xdotool", "click", toString b]).exitCode = 0) :
    (cmd_click ctx w x y b).calls =
      [["xdotool", "mousemove", toString x, toString y],
       ["xdotool", "click", toString b]] ∧
    (cmd_click ctx w x y b).exit = none := by
  simp [cmd_click, require_bins, hx, hm, hc]

/-- C7 witness: `click 100 200 --button 2` in a concrete world issues the
move to (100, 200) then the button-2 click. -/
theorem click_exactly_move_then_click_witness :
    (cmd_click ctx0 xdoWorld 100 200 2).calls =
      [["xdotool", "mousemove", "100", "200"], ["xdotool", "click", "2"]] ∧
    (cmd_click ctx0 xdoWorld 100 200 2).exit = none := by
  have h := click_exactly_move_then_click ctx0 xdoWorld 100 200 2
    "/usr/bin/xdotool" (by decide) (by decide) (by decide)
  exact ⟨h.1.trans (by decide), h.2⟩

/-- C5: for the `activate` subcommand, when `xdotool` resolves and the
window search yields zero identifiers, the process exits non-zero without
issuing an activate invocation (the search is the only external call), and
the message contains the literal pattern. -/
theorem activate_no_match_fatal (ctx : Ctx) (w : World) (name : String)
    (p : String) (hx : w.which "xdotool" = some p)
    (he : activateIds w name = []) :
    cmd_activate ctx w name =
      ⟨[searchArgv name], [], [], some ("No window found matching: " ++ name), ctx⟩ ∧
    ∃ pre, "No window found matching: " ++ name = pre ++ name := by
  refine ⟨?_, "No window found matching: ", rfl⟩
  simp [cmd_activate, require_bins, hx, he]

/-- C5 witness: a pattern matching nothing exits with the pattern in the
message and no activate call. -/
theorem activate_no_match_fatal_witness :
    cmd_activate ctx0 xdoWorld "NoSuch" =
      ⟨[searchArgv "NoSuch"], [], [], some "No window found matching: NoSuch", ctx0⟩ := by
  have h := activate_no_match_fatal ctx0 xdoWorld "NoSuch"
    "/usr/bin/xdotool" (by decide) (by decide)
  exact h.1.trans (by decide)

/-- C1: for the `activate` subcommand, when `xdotool` resolves, the search
lists at least one identifier and the activation call succeeds, the handler
selects the last listed identifier, issues exactly one activate invocation
targeting it (after the search call), and prints exactly that identifier. -/
theorem activate_picks_last (ctx : Ctx) (w : World) (name : String)
    (p : String) (hx : w.which "xdotool" = some p)
    (hne : activateIds w name ≠ [])
    (ha : (w.run ["xdotool", "windowactivate",
            (activateIds w name).getLastD ""]).exitCode = 0) :
    cmd_activate ctx w name =
      ⟨[searchArgv name,
        ["xdotool", "windowactivate", (activateIds w name).getLastD ""]],
       [(activateIds w name).getLastD ""], [], none, ctx⟩ ∧
    (activateIds w name).getLastD "" = (activateIds w name).getLast hne := by
  constructor
  · simp only [List.getLastD_eq_getLast?] at ha
    simp [cmd_activate, require_bins, hx, hne, ha]
  · rw [List.getLastD_eq_getLast?, List.getLast?_eq_getLast _ hne]
    rfl

/-- C1 witness: with listed identifiers `1001 1002`, the handler activates
and prints `1002`, the last match. -/
theorem activate_picks_last_witness :
    cmd_activate ctx0 xdoWorld "Edit.*" =
      ⟨[searchArgv "Edit.*", ["xdotool", "windowactivate", "1002"]],
       ["1002"], [], none, ctx0⟩ := by
  have h := activate_picks_last ctx0 xdoWorld "Edit.*"
    "/usr/bin/xdotool" (by decide) (by decide) (by decide)
  exact h.1.trans (by decide)

/-- C6: for the `windows` subcommand, when `xdotool` resolves, the listing
never aborts (exit 0 for every world, title-lookup exit codes included),
the external calls are the wildcard search followed by one title lookup per
discovered identifier in order, and the printed lines are exactly one
`identifier<TAB>stripped-title` line per identifier in discovery order —
in particular one line per identifier. -/
theorem windows_one_line_per_id (ctx : Ctx) (w : World)
    (p : String) (hx : w.which "xdotool" = some p) :
    (cmd_windows ctx w).exit = none ∧
    (cmd_windows ctx w).calls =
      windowsSearchArgv ::
        (windowIds w).map (fun wid => ["xdotool", "getwindowname", wid]) ∧
    (cmd_windows ctx w).printed =
      (windowIds w).map (fun wid =>
        wid ++ "\t" ++ pyStrip (w.run ["xdotool", "getwindowname", wid]).stdout) ∧
    (cmd_windows ctx w).printed.length = (windowIds w).length := by
  simp [cmd_windows, require_bins, hx]

/-- C6 witness: identifiers `7` and `8` are discovered; the title lookup
for `8` fails (non-zero exit, empty capture) yet its line is still printed
with an empty title, after `7`'s line, and the run exits 0. -/
theorem windows_one_line_per_id_witness :
    (cmd_windows ctx0 xdoWorld).printed = ["7\tEditor", "8\t"] ∧
    (cmd_windows ctx0 xdoWorld).exit = none := by
  have h := windows_one_line_per_id ctx0 xdoWorld "/usr/bin/xdotool" (by decide)
  exact ⟨h.2.2.1.trans (by decide), h.1⟩

/-- C8 counterexample: the `where` subcommand does not forward the captured
stdout unmodified — the capture here ends in two newlines, but the emitted
text (`print` of the stripped capture) ends in one, so the two differ. -/
theorem where_not_verbatim :
    emittedOut (cmd_where ctx0 xdoWorld) ≠ (xdoWorld.run whereArgv).stdout := by
  decide

/-- C8 amended: for the `where` subcommand, when `xdotool` resolves and the
query succeeds, the single printed line is the captured stdout with leading
and trailing whitespace stripped (hence equal to the raw capture exactly
when the capture is that stripped text plus a single trailing newline). -/
theorem where_prints_stripped_capture (ctx : Ctx) (w : World)
    (p : String) (hx : w.which "xdotool" = some p)
    (hr : (w.run whereArgv).exitCode = 0) :
    (cmd_where ctx w).printed = [pyStrip (w.run whereArgv).stdout] ∧
    (cmd_where ctx w).calls = [whereArgv] ∧
    (cmd_where ctx w).exit = none := by
  simp [cmd_where, require_bins, hx, hr]

/-- C8 witness: a capture of `"X=290 Y=418\n\n"` prints as the single line
`"X=290 Y=418"`. -/
theorem where_prints_stripped_capture_witness :
    (cmd_where ctx0 xdoWorld).printed = ["X=290 Y=418"] := by
  have h := where_prints_stripped_capture ctx0 xdoWorld
    "/usr/bin/xdotool" (by decide) (by decide)
  exact h.1.trans (by decide)

/-- C2: the dependency preflight resolves every required tool; the missing
list is the required list filtered in required order; when it is non-empty
the preflight is fatal with the message listing exactly the missing tools,
in required order, plus the `apt-get install` suggestion; and each
subcommand whose preflight fails terminates with that message before
issuing any external call, printing nothing and creating nothing (`open`
has an empty required set and performs no preflight). -/
theorem missing_bins_fatal_before_calls (ctx : Ctx) (w : World) :
    (∀ bins : List String,
      (require_bins w bins = none ↔
        bins.filter (fun b => (w.which b).isNone) = []) ∧
      (bins.filter (fun b => (w.which b).isNone) ≠ [] →
        require_bins w bins =
          some (requireMsg (bins.filter (fun b => (w.which b).isNone))))) ∧
    (w.which "scrot" = none → ∀ out outDir now,
      cmd_screenshot ctx w out outDir now =
        ⟨[], [], [], some (requireMsg ["scrot"]), ctx⟩) ∧
    (w.which "xdotool" = none →
      (∀ x y b, cmd_click ctx w x y b = ⟨[], [], [], some (requireMsg ["xdotool"]), ctx⟩) ∧
      (∀ text delay, cmd_type ctx w text delay = ⟨[], [], [], some (requireMsg ["xdotool"]), ctx⟩) ∧
      (∀ keys, cmd_key ctx w keys = ⟨[], [], [], some (requireMsg ["xdotool"]), ctx⟩) ∧
      cmd_where ctx w = ⟨[], [], [], some (requireMsg ["xdotool"]), ctx⟩ ∧
      cmd_windows ctx w = ⟨[], [], [], some (requireMsg ["xdotool"]), ctx⟩ ∧
      (∀ name, cmd_activate ctx w name = ⟨[], [], [], some (requireMsg ["xdotool"]), ctx⟩)) := by
  refine ⟨?_, ?_, ?_⟩
  · intro bins
    constructor
    · by_cases h : bins.filter (fun b => (w.which b).isNone) = [] <;>
        simp [require_bins, h]
    · intro h
      simp [require_bins, h]
  · intro hs out outDir now
    simp [cmd_screenshot, require_bins, hs]
  · intro hx
    refine ⟨?_, ?_, ?_, ?_, ?_, ?_⟩ <;>
      simp [cmd_click, cmd_type, cmd_key, cmd_where, cmd_windows, cmd_activate,
        require_bins, hx]

/-- C2 witness: in a world with an empty search path, `click` exits with
the exact missing-`xdotool` message, zero external calls and no output. -/
theorem missing_bins_fatal_before_calls_witness :
    cmd_click ctx0 bareWorld 1 2 1 =
      ⟨[], [],  [],
       some ("Missing required command(s): xdotool\nInstall (Debian/Ubuntu): sudo apt-get install -y xdotool"),
       ctx0⟩ := by
  have h := (missing_bins_fatal_before_calls ctx0 bareWorld).2.2 rfl
  exact (h.1 1 2 1).trans (by decide)

/-- C3: for the `open` subcommand, candidates are tried in the order
xdg-open, gio, chromium-browser; the first that resolves is invoked exactly
once with the URL and the run exits 0 whatever the opener's own exit code
(the world's `run` oracle is universally quantified, so a non-zero opener
exit is not an error); when none resolve the run exits non-zero with the
message naming the three candidates and makes no external call. -/
theorem open_priority_order (ctx : Ctx) (w : World) (url : String) :
    (∀ p, p ≠ "" → w.which "xdg-open" = some p →
      ∃ argv, cmd_open ctx w url = ⟨[argv], [], [], none, ctx⟩ ∧
        argv.head? = some p ∧ url ∈ argv) ∧
    (w.which "xdg-open" = none → ∀ p, p ≠ "" → w.which "gio" = some p →
      ∃ argv, cmd_open ctx w url = ⟨[argv], [], [], none, ctx⟩ ∧
        argv.head? = some p ∧ url ∈ argv) ∧
    (w.which "xdg-open" = none → w.which "gio" = none →
      ∀ p, p ≠ "" → w.which "chromium-browser" = some p →
      cmd_open ctx w url = ⟨[["chromium-browser", url]], [], [], none, ctx⟩ ∧
        url ∈ [["chromium-browser", url]].headD []) ∧
    (w.which "xdg-open" = none → w.which "gio" = none →
      w.which "chromium-browser" = none →
      cmd_open ctx w url =
        ⟨[], [], [], some "No URL opener found (tried xdg-open/gio/chromium-browser)", ctx⟩) := by
  refine ⟨?_, ?_, ?_, ?_⟩
  · intro p hp hx
    by_cases hg : pathName p = "gio"
    · exact ⟨[p, "open", url], by simp [cmd_open, pyOr, pyTruthy, hx, hp, hg],
        by simp, by simp⟩
    · exact ⟨[p, url], by simp [cmd_open, pyOr, pyTruthy, hx, hp, hg],
        by simp, by simp⟩
  · intro hx p hp hg
    by_cases hn : pathName p = "gio"
    · exact ⟨[p, "open", url], by simp [cmd_open, pyOr, pyTruthy, hx, hg, hp, hn],
        by simp, by simp⟩
    · exact ⟨[p, url], by simp [cmd_open, pyOr, pyTruthy, hx, hg, hp, hn],
        by simp, by simp⟩
  · intro hx hg p hp hc
    exact ⟨by simp [cmd_open, pyOr, pyTruthy, hx, hg, hc, hp], by simp⟩
  · intro hx hg hc
    simp [cmd_open, pyOr, pyTruthy, hx, hg, hc]

/-- C3 witness: with only `xdg-open` resolved and its launch exiting 4, the
run still exits 0; with nothing resolved, the run exits with the message
naming the candidates tried. -/
theorem open_priority_order_witness :
    (cmd_open ctx0 xdgWorld "http://example.com").exit = none ∧
    (xdgWorld.run ["/usr/bin/xdg-open", "http://example.com"]).exitCode ≠ 0 ∧
    cmd_open ctx0 bareWorld "http://example.com" =
      ⟨[], [], [], some "No URL opener found (tried xdg-open/gio/chromium-browser)", ctx0⟩ := by
  obtain ⟨argv, he, -, -⟩ :=
    (open_priority_order ctx0 xdgWorld "http://example.com").1
      "/usr/bin/xdg-open" (by decide) (by decide)
  refine ⟨by rw [he], by decide, ?_⟩
  exact (open_priority_order ctx0 bareWorld "http://example.com").2.2.2 rfl rfl rfl

/-- C10: the argument vector passed to the selected opener depends on the
resolved path's basename: a resolved `xdg-open or gio` path with basename
`gio` is invoked as `<opener> open <url>`, any other resolved path as
`<opener> <url>`, and the chromium fallback as `chromium-browser <url>`. -/
theorem open_argv_shape (ctx : Ctx) (w : World) (url : String) :
    (∀ p, p ≠ "" →
      (w.which "xdg-open" = some p ∨
        (w.which "xdg-open" = none ∧ w.which "gio" = some p)) →
      (pathName p = "gio" →
        cmd_open ctx w url = ⟨[[p, "open", url]], [], [], none, ctx⟩) ∧
      (pathName p ≠ "gio" →
        cmd_open ctx w url = ⟨[[p, url]], [], [], none, ctx⟩)) ∧
    (w.which "xdg-open" = none → w.which "gio" = none →
      ∀ p, p ≠ "" → w.which "chromium-browser" = some p →
      cmd_open ctx w url = ⟨[["chromium-browser", url]], [], [], none, ctx⟩) := by
  constructor
  · rintro p hp (hx | ⟨hx, hg⟩)
    · exact ⟨fun hn => by simp [cmd_open, pyOr, pyTruthy, hx, hp, hn],
        fun hn => by simp [cmd_open, pyOr, pyTruthy, hx, hp, hn]⟩
    · exact ⟨fun hn => by simp [cmd_open, pyOr, pyTruthy, hx, hg, hp, hn],
        fun hn => by simp [cmd_open, pyOr, pyTruthy, hx, hg, hp, hn]⟩
  · intro hx hg p hp hc
    simp [cmd_open, pyOr, pyTruthy, hx, hg, hc, hp]

/-- C10 witness: a resolved `/usr/bin/gio` is invoked as
`gio open <url>`, while a resolved `/usr/bin/xdg-open` is invoked with the
URL as sole argument. -/
theorem open_argv_shape_witness :
    cmd_open ctx0 gioWorld "http://example.com" =
      ⟨[["/usr/bin/gio", "open", "http://example.com"]], [], [], none, ctx0⟩ ∧
    cmd_open ctx0 xdgWorld "http://example.com" =
      ⟨[["/usr/bin/xdg-open", "http://example.com"]], [], [], none, ctx0⟩ := by
  constructor
  · exact ((open_argv_shape ctx0 gioWorld "http://example.com").1
      "/usr/bin/gio" (by decide) (Or.inr ⟨by decide, by decide⟩)).1 (by decide)
  · exact ((open_argv_shape ctx0 xdgWorld "http://example.com").1
      "/usr/bin/xdg-open" (by decide) (Or.inl (by decide))).2 (by decide)

/-- Appending a non-empty string on the right yields a non-empty string. -/
theorem append_ne_empty_right (a b : String) (hb : b ≠ "") : a ++ b ≠ "" := by
  intro h
  apply hb
  have hd : a.data ++ b.data = [] := by
    have h2 := congrArg String.data h
    rwa [String.data_append] at h2
  have hb2 : b.data = [] := (List.append_eq_nil.mp hd).2
  exact String.ext hb2

/-- `joinRel` with a non-empty file name is non-empty. -/
theorem joinRel_ne_empty (d n : String) (hn : n ≠ "") : joinRel d n ≠ "" := by
  unfold joinRel
  split
  · exact hn
  · split
    · exact append_ne_empty_right _ _ hn
    · split
      · exact append_ne_empty_right _ _ hn
      · exact append_ne_empty_right _ _ hn

/-- C9 counterexample: an explicitly supplied empty `--display` flag makes
the context's display field the empty string before the handler runs. -/
theorem ctx_empty_display_flag :
    (mkCtx (some "") none none none "/root").display = "" := rfl

/-- C9 amended: the module-level defaults are always non-empty (display
falls back to `:0`, the cookie path to `<home>/.Xauthority`), so each
context field is non-empty whenever the corresponding CLI flag, if
supplied, is non-empty; and no subcommand handler mutates the context
(every handler returns it unchanged). -/
theorem ctx_nonempty_defaults_handlers_pure
    (fd fx eD eX : Option String) (home : String) :
    ((∀ s, fd = some s → s ≠ "") → (mkCtx fd fx eD eX home).display ≠ "") ∧
    ((∀ s, fx = some s → s ≠ "") → (mkCtx fd fx eD eX home).xauthority ≠ "") ∧
    (∀ ctx w out outDir now, (cmd_screenshot ctx w out outDir now).ctxFinal = ctx) ∧
    (∀ ctx w x y b, (cmd_click ctx w x y b).ctxFinal = ctx) ∧
    (∀ ctx w text delay, (cmd_type ctx w text delay).ctxFinal = ctx) ∧
    (∀ ctx w keys, (cmd_key ctx w keys).ctxFinal = ctx) ∧
    (∀ ctx w, (cmd_where ctx w).ctxFinal = ctx) ∧
    (∀ ctx w, (cmd_windows ctx w).ctxFinal = ctx) ∧
    (∀ ctx w name, (cmd_activate ctx w name).ctxFinal = ctx) ∧
    (∀ ctx w url, (cmd_open ctx w url).ctxFinal = ctx) := by
  refine ⟨?_, ?_, ?_, ?_, ?_, ?_, ?_, ?_, ?_, ?_⟩
  · intro hfd
    cases fd with
    | none =>
      cases eD with
      | none => simp [mkCtx, pyOrS]
      | some s =>
        simp only [mkCtx, pyOrS, Option.getD]
        split <;> simp_all
    | some s => simpa [mkCtx] using hfd s rfl
  · intro hfx
    cases fx with
    | none =>
      cases eX with
      | none =>
        simpa [mkCtx, pyOrS] using
          joinRel_ne_empty (pathStr home) ".Xauthority" (by decide)
      | some s =>
        simp only [mkCtx, pyOrS, Option.getD]
        split
        · exact joinRel_ne_empty (pathStr home) ".Xauthority" (by decide)
        · simp_all
    | some s => simpa [mkCtx] using hfx s rfl
  · intro ctx w out outDir now
    unfold cmd_screenshot
    split
    · rfl
    · dsimp only
      split <;> split <;> rfl
  · intro ctx w x y b
    unfold cmd_click
    split
    · rfl
    · dsimp only
      split
      · split <;> rfl
      · rfl
  · intro ctx w text delay
    unfold cmd_type
    split
    · rfl
    · dsimp only
      split <;> rfl
  · intro ctx w keys
    unfold cmd_key
    split
    · rfl
    · dsimp only
      split <;> rfl
  · intro ctx w
    unfold cmd_where
    split
    · rfl
    · dsimp only
      split <;> rfl
  · intro ctx w
    unfold cmd_windows
    split <;> rfl
  · intro ctx w name
    unfold cmd_activate
    split
    · rfl
    · dsimp only
      split
      · rfl
      · split <;> rfl
  · intro ctx w url
    unfold cmd_open
    dsimp only
    split
    · rfl
    · split
      · rfl
      · split <;> rfl

/-- C9 amended witness: with no flags supplied and an empty environment,
both context fields are non-empty, and a handler run leaves the context
unchanged. -/
theorem ctx_nonempty_defaults_handlers_pure_witness :
    (mkCtx none none none none "/root").display ≠ "" ∧
    (mkCtx none none none none "/root").xauthority ≠ "" ∧
    (cmd_where ctx0 xdoWorld).ctxFinal = ctx0 := by
  have h := ctx_nonempty_defaults_handlers_pure none none none none "/root"
  exact ⟨h.1 (by intro s hs; cases hs), h.2.1 (by intro s hs; cases hs),
    h.2.2.2.2.2.2.1 ctx0 xdoWorld⟩

/-- Every character `digitChar` produces is a decimal digit. -/
theorem digitChar_isDigit (n : Nat) : (digitChar n).isDigit = true := by
  unfold digitChar
  repeat' split
  all_goals decide

/-- Every character of the fueled decimal rendering is a decimal digit. -/
theorem decCharsAux_digits (fuel : Nat) :
    ∀ n, ∀ c ∈ decCharsAux fuel n, c.isDigit = true := by
  induction fuel with
  | zero => intro n c hc; simp [decCharsAux] at hc
  | succ f ih =>
    intro n c hc
    simp only [decCharsAux] at hc
    split at hc
    · simp at hc
      subst hc
      exact digitChar_isDigit n
    · rcases List.mem_append.mp hc with h | h
      · exact ih (n / 10) c h
      · simp at h
        subst h
        exact digitChar_isDigit (n % 10)

/-- Length bound for the fueled decimal rendering: a number below `10 ^ k`
renders in at most `k` digits (any fuel). -/
theorem decCharsAux_len_le (fuel : Nat) :
    ∀ k n, 0 < k → n < 10 ^ k → (decCharsAux fuel n).length ≤ k := by
  induction fuel with
  | zero => intro k n hk _; simp [decCharsAux]
  | succ f ih =>
    intro k n hk h
    simp only [decCharsAux]
    split
    · simpa using hk
    · rename_i hge
      have hk2 : 2 ≤ k := by
        rcases k with - | - | k
        · omega
        · exact absurd (by simpa using h) hge
        · omega
      have hpow : 10 ^ k = 10 * 10 ^ (k - 1) := by
        rw [← pow_succ']
        congr 1
        omega
      have hdiv : n / 10 < 10 ^ (k - 1) := by
        apply Nat.div_lt_of_lt_mul
        rw [← hpow]
        exact h
      have := ih (k - 1) (n / 10) (by omega) hdiv
      simp only [List.length_append, List.length_singleton]
      omega

/-- Zero-padding to width `w` of a list of at most `w` characters has
length exactly `w`. -/
theorem pad0_length (w : Nat) (l : List Char) (h : l.length ≤ w) :
    (pad0 w l).length = w := by
  simp [pad0]
  omega

/-- Zero-padding a list of decimal digits yields only decimal digits. -/
theorem pad0_digits (w : Nat) (l : List Char)
    (hl : ∀ c ∈ l, c.isDigit = true) : ∀ c ∈ pad0 w l, c.isDigit = true := by
  intro c hc
  rcases List.mem_append.mp hc with h | h
  · have := List.eq_of_mem_replicate h
    subst this
    decide
  · exact hl c h

/-- The number of decimal digits of `n < 10 ^ k` is at most `k`. -/
theorem decChars_len_le (k n : Nat) (hk : 0 < k) (h : n < 10 ^ k) :
    (decChars n).length ≤ k :=
  decCharsAux_len_le (n + 1) k n hk h

/-- A four-digit field: length for years up to 9999. -/
theorem fmt4_length (n : Nat) (h : n ≤ 9999) : (fmt4 n).length = 4 :=
  pad0_length 4 _ (decChars_len_le 4 n (by norm_num)
    (lt_of_le_of_lt h (by norm_num)))

/-- A two-digit field: length for values up to 99. -/
theorem fmt2_length (n : Nat) (h : n ≤ 99) : (fmt2 n).length = 2 :=
  pad0_length 2 _ (decChars_len_le 2 n (by norm_num)
    (lt_of_le_of_lt h (by norm_num)))

/-- Four-digit fields consist of decimal digits. -/
theorem fmt4_digits (n : Nat) : ∀ c ∈ fmt4 n, c.isDigit = true :=
  pad0_digits 4 _ (decCharsAux_digits (n + 1) n)

/-- Two-digit fields consist of decimal digits. -/
theorem fmt2_digits (n : Nat) : ∀ c ∈ fmt2 n, c.isDigit = true :=
  pad0_digits 2 _ (decCharsAux_digits (n + 1) n)

/-- A decimal digit is not a path separator. -/
theorem isDigit_ne_slash (c : Char) (h : c.isDigit = true) : c ≠ '/' := by
  intro he
  subst he
  exact absurd h (by decide)

/-- C4 counterexample: an explicit but empty `--out` is falsy in Python, so
the handler does not use it as the resolved output path — it prints the
auto-generated path instead. -/
theorem screenshot_empty_out_not_explicit :
    (cmd_screenshot ctx0 scrotWorld (some "") "tmp" ⟨2026, 10, 12, 3, 4, 5⟩).printed
      = ["tmp/desktop-20261012-030405.png"] ∧
    (cmd_screenshot ctx0 scrotWorld (some "") "tmp" ⟨2026, 10, 12, 3, 4, 5⟩).printed
      ≠ [""] := by
  decide

/-- C4 amended: for the `screenshot` subcommand with `scrot` resolved and
realistic timestamp field bounds, when a truthy (non-empty) `--out` is
given the resolved path is its pathlib normalization (the explicit path
itself whenever already normalized), and otherwise the resolved path joins
the normalized `--out-dir` with the auto-generated name; in both cases the
parent of the resolved path is created, `scrot` receives exactly the
resolved path and exactly it is printed (when `scrot` succeeds); the
auto-generated name matches `desktop-<8 digits>-<6 digits>.png` and
contains no separator, so the file lies directly under `--out-dir`. -/
theorem screenshot_path_resolution (ctx : Ctx) (w : World) (out : Option String)
    (outDir : String) (t : UTCTime) (p : String)
    (hs : w.which "scrot" = some p)
    (hy : t.year ≤ 9999) (hmo : t.month ≤ 99) (hd : t.day ≤ 99)
    (hh : t.hour ≤ 99) (hmi : t.minute ≤ 99) (hsec : t.second ≤ 99) :
    (pyTruthy out = true →
      (w.run ["scrot", pathStr (out.getD "")]).exitCode = 0 →
      cmd_screenshot ctx w out outDir t =
        ⟨[["scrot", pathStr (out.getD "")]], [pathStr (out.getD "")],
         [pathStr (out.getD "")], none, ctx⟩) ∧
    (pyTruthy out = false →
      (w.run ["scrot", joinRel (pathStr outDir) (shotName t)]).exitCode = 0 →
      cmd_screenshot ctx w out outDir t =
        ⟨[["scrot", joinRel (pathStr outDir) (shotName t)]],
         [joinRel (pathStr outDir) (shotName t)],
         [joinRel (pathStr outDir) (shotName t)], none, ctx⟩) ∧
    (∃ d e : List Char, d.length = 8 ∧ e.length = 6 ∧
      (∀ c ∈ d, c.isDigit = true) ∧ (∀ c ∈ e, c.isDigit = true) ∧
      (shotName t).data = "desktop-".data ++ d ++ ['-'] ++ e ++ ".png".data) ∧
    (∀ c ∈ (shotName t).data, c ≠ '/') := by
  have hdata : (shotName t).data =
      "desktop-".data ++ (fmt4 t.year ++ fmt2 t.month ++ fmt2 t.day) ++ ['-']
        ++ (fmt2 t.hour ++ fmt2 t.minute ++ fmt2 t.second) ++ ".png".data := by
    simp [shotName, strftimeTs, String.data_append]
  refine ⟨?_, ?_, ?_, ?_⟩
  · intro ht hr
    simp [cmd_screenshot, require_bins, hs, ht, hr]
  · intro ht hr
    simp [cmd_screenshot, require_bins, hs, ht, hr]
  · refine ⟨fmt4 t.year ++ fmt2 t.month ++ fmt2 t.day,
      fmt2 t.hour ++ fmt2 t.minute ++ fmt2 t.second, ?_, ?_, ?_, ?_, hdata⟩
    · simp [List.length_append, fmt4_length t.year hy, fmt2_length t.month hmo,
        fmt2_length t.day hd]
    · simp [List.length_append, fmt2_length t.hour hh, fmt2_length t.minute hmi,
        fmt2_length t.second hsec]
    · intro c hc
      rcases List.mem_append.mp hc with h | h
      · rcases List.mem_append.mp h with h2 | h2
        · exact fmt4_digits t.year c h2
        · exact fmt2_digits t.month c h2
      · exact fmt2_digits t.day c h
    · intro c hc
      rcases List.mem_append.mp hc with h | h
      · rcases List.mem_append.mp h with h2 | h2
        · exact fmt2_digits t.hour c h2
        · exact fmt2_digits t.minute c h2
      · exact fmt2_digits t.second c h
  · rw [hdata]
    refine List.forall_mem_append.mpr ⟨?_, by decide⟩
    refine List.forall_mem_append.mpr ⟨?_, ?_⟩
    · refine List.forall_mem_append.mpr ⟨?_, by decide⟩
      refine List.forall_mem_append.mpr ⟨by decide, ?_⟩
      intro c h
      rcases List.mem_append.mp h with h2 | h2
      · rcases List.mem_append.mp h2 with h3 | h3
        · exact isDigit_ne_slash c (fmt4_digits t.year c h3)
        · exact isDigit_ne_slash c (fmt2_digits t.month c h3)
      · exact isDigit_ne_slash c (fmt2_digits t.day c h2)
    · intro c h
      rcases List.mem_append.mp h with h2 | h2
      · rcases List.mem_append.mp h2 with h3 | h3
        · exact isDigit_ne_slash c (fmt2_digits t.hour c h3)
        · exact isDigit_ne_slash c (fmt2_digits t.minute c h3)
      · exact isDigit_ne_slash c (fmt2_digits t.second c h2)

/-- C4 amended witness: without `--out`, the resolved path lies directly
under the resolved `--out-dir`, is passed to `scrot`, is recorded for
parent creation and is printed. -/
theorem screenshot_path_resolution_witness :
    cmd_screenshot ctx0 scrotWorld none "shots" ⟨2026, 10, 12, 3, 4, 5⟩ =
      ⟨[["scrot", "shots/desktop-20261012-030405.png"]],
       ["shots/desktop-20261012-030405.png"],
       ["shots/desktop-20261012-030405.png"], none, ctx0⟩ := by
  have h := (screenshot_path_resolution ctx0 scrotWorld none "shots"
    ⟨2026, 10, 12, 3, 4, 5⟩ "/usr/bin/scrot" (by decide) (by decide) (by decide)
    (by decide) (by decide) (by decide) (by decide)).2.1 (by decide) (by decide)
  exact h.trans (by decide)

end Desktopctl
